import Mathlib

/-!
Verification of the ensemble price-forecasting engine in
`backend/app/services/ml/price_predictor.py`.

The Python functions are shallowly embedded over `ℚ` (exact rational
arithmetic standing for the source's floats; dates are modelled as integer
day numbers).  The two statistical model fits (`ARIMA(...).fit()` /
`SARIMAX(...).fit()` together with their `get_forecast` outputs) are
numerical library calls; they are represented by an explicit oracle
parameter: a deterministic function from the fitted data (and the requested
horizon and confidence level) to either `none` (the `try` block raised, the
source's fallback path runs) or `some` pair of per-model forecasts.  The
square root (used by `numpy.sqrt` / `pandas.Series.std`) is likewise passed
in as a function parameter `sq : ℚ → ℚ`, applied exactly where the source
takes a square root; no claim below depends on its values.
-/

/-! ## Small numeric helpers (numpy / pandas primitives) -/

/-- Arithmetic mean of a list, `numpy.mean` / `pandas.Series.mean`.
For the empty list this is `0/0 = 0` under total rational division. -/
def listMean (l : List ℚ) : ℚ := l.sum / l.length

/-- Sample variance with one delta degree of freedom, the square of
`pandas.Series.std()` (pandas' default `ddof=1`). -/
def sampleVar (l : List ℚ) : ℚ :=
  (l.map (fun x => (x - listMean l) ^ 2)).sum / ((l.length : ℚ) - 1)

/-- `pandas.Series.pct_change().dropna()`: successive relative changes. -/
def pctChange (l : List ℚ) : List ℚ :=
  (l.zip l.tail).map (fun p => (p.2 - p.1) / p.1)

/-- `Series.tail(n)`: the last `n` elements (the whole list when shorter). -/
def lastN (n : ℕ) (l : List ℚ) : List ℚ := l.drop (l.length - n)

/-- `numpy.std([x, y], axis=0)` for a two-point sample: the population
standard deviation of `{x, y}`, which is exactly `|x - y| / 2` (see
`pairStd_eq_npStd2` below for the square-root form). -/
def npStd2 (x y : ℚ) : ℚ := |x - y| / 2

/-- The standard deviation of the two-point sample `{x, y}` written with an
explicit square root, exactly as `numpy.std` computes it. -/
noncomputable def pairStd (x y : ℝ) : ℝ :=
  Real.sqrt (((x - (x + y) / 2) ^ 2 + (y - (x + y) / 2) ^ 2) / 2)

/-! ## Data model -/

/-- One row of the date-indexed price series: (date, closing price). -/
abbrev PricePoint := ℤ × ℚ

/-- The price values of a series, forgetting the dates. -/
def prices (h : List PricePoint) : List ℚ := h.map Prod.snd

/-- `historical.loc[pd.Timestamp.now()] = live_price; historical = historical.tail(120)`:
append the live price as the newest point, then keep the most recent 120. -/
def updatedHistorical (h : List PricePoint) (now : ℤ) (live : ℚ) : List PricePoint :=
  let appended := h ++ [(now, live)]
  appended.drop (appended.length - 120)

/-- One fitted model's forecast output: point estimates (`predicted_mean`)
and the two columns of `conf_int()`, indexed by forecast step. -/
structure ModelForecast where
  mean : ℕ → ℚ
  lower : ℕ → ℚ
  upper : ℕ → ℚ

/-- The joint result of the single `try` block fitting both models and
extracting their forecasts; the source fails or succeeds as a whole. -/
structure FitResult where
  arima : ModelForecast
  sarima : ModelForecast

/-- The combined forecast data produced by steps 4-6 of `predict_price`:
`final_fc`, `lower_bound`, `upper_bound`, `forecast_std` as step-indexed values. -/
structure CoreForecast where
  fc : ℕ → ℚ
  lower : ℕ → ℚ
  upper : ℕ → ℚ
  fstd : ℕ → ℚ

/-- `accuracy_metrics` dictionary. -/
structure AccuracyMetrics where
  rmse : ℚ
  mae : ℚ
  mape : ℚ
  test_size : ℕ

/-- One element of the response's `forecast` list. -/
structure ForecastPoint where
  date : ℤ
  price : ℚ
  lower_bound : ℚ
  upper_bound : ℚ
  std_dev : ℚ

/-- The response's `trend` dictionary (`direction` is `true` for "up"). -/
structure TrendInfo where
  direction : Bool
  percentage_change : ℚ
  recent_10d_change : ℚ

/-- The dictionary returned by `_calculate_indicators`. -/
structure Indicators where
  dates : List ℤ
  sma_20 : List ℚ
  ema_20 : List ℚ
  rsi : List ℚ
  macd : List ℚ
  macd_signal : List ℚ
  macd_hist : List ℚ
  bb_upper : List ℚ
  bb_lower : List ℚ

/-- The dictionary returned by `predict_price` (the string fields `symbol`,
`live_time` and the constant `model_info` metadata are omitted: they carry
no data the forecasting computation produces). -/
structure PredictResponse where
  live_price : ℚ
  historical : List PricePoint
  forecast : List ForecastPoint
  indicators : Indicators
  predicted_t1 : ℚ
  predicted_t10 : ℚ
  trend : TrendInfo
  volatility : ℚ
  confidence_score : ℚ
  confidence_level : ℚ
  accuracy_metrics : Option AccuracyMetrics

/-! ## Ensemble combiner and fallback (steps 4-6 of `predict_price`) -/

/-- The success branch: `final_fc = (arima_fc + sarima_fc)/2`, bounds are the
averaged `conf_int` columns, `forecast_std = np.std([arima_fc, sarima_fc], axis=0)`. -/
def ensembleCore (fr : FitResult) : CoreForecast where
  fc := fun i => (fr.arima.mean i + fr.sarima.mean i) / 2
  lower := fun i => (fr.arima.lower i + fr.sarima.lower i) / 2
  upper := fun i => (fr.arima.upper i + fr.sarima.upper i) / 2
  fstd := fun i => npStd2 (fr.arima.mean i) (fr.sarima.mean i)

/-- `last_price = float(historical.iloc[-1])` (the series is never empty:
the live price was just appended; `0` is an unreachable default). -/
def lastPriceOf (hp : List ℚ) : ℚ := hp.getLast?.getD 0

/-- `trend = (last_price - ma) / 10` with `ma = historical.tail(5).mean()`. -/
def fallbackTrend (hp : List ℚ) : ℚ :=
  (lastPriceOf hp - listMean (lastN 5 hp)) / 10

/-- The `except` branch of model fitting: damped-trend projection with the
fixed-width `±1.96 * historical.std()` interval and
`forecast_std = np.full(steps, std)`. -/
def fallbackCore (sq : ℚ → ℚ) (hp : List ℚ) : CoreForecast where
  fc := fun i => lastPriceOf hp + fallbackTrend hp * ((i : ℚ) + 1)
  lower := fun i =>
    lastPriceOf hp + fallbackTrend hp * ((i : ℚ) + 1) - 196 / 100 * sq (sampleVar hp)
  upper := fun i =>
    lastPriceOf hp + fallbackTrend hp * ((i : ℚ) + 1) + 196 / 100 * sq (sampleVar hp)
  fstd := fun _ => sq (sampleVar hp)

/-- Steps 4-6 of `predict_price`: try the dual-model fit (the oracle `fit`
receives the fitted price values, the horizon and the confidence level);
on failure run the fallback. -/
def coreForecast (sq : ℚ → ℚ) (hp : List ℚ) (steps : ℕ) (cl : ℚ)
    (fit : List ℚ → ℕ → ℚ → Option FitResult) : CoreForecast :=
  match fit hp steps cl with
  | some fr => ensembleCore fr
  | none => fallbackCore sq hp

/-! ## Backtester (step 7 of `predict_price`) -/

/-- `train_size = int(len(historical) * 0.8)` (truncation of a nonnegative
float is the floor). -/
def trainSize (n : ℕ) : ℕ := (⌊(8 : ℚ) / 10 * (n : ℚ)⌋).toNat

/-- The metrics computed from the held-out `test` values and the two refit
models' test forecasts: `ensemble_test_fc = (arima_test_fc + sarima_test_fc)/2`,
`rmse = sqrt(mean_squared_error)`, `mae = mean_absolute_error`,
`mape = mean_absolute_percentage_error * 100`. -/
def mkMetrics (sq : ℚ → ℚ) (test : List ℚ) (afc sfc : ℕ → ℚ) : AccuracyMetrics where
  rmse := sq (listMean (List.ofFn (fun i : Fin test.length =>
    (test.getD i 0 - (afc i + sfc i) / 2) ^ 2)))
  mae := listMean (List.ofFn (fun i : Fin test.length =>
    |test.getD i 0 - (afc i + sfc i) / 2|))
  mape := listMean (List.ofFn (fun i : Fin test.length =>
    |test.getD i 0 - (afc i + sfc i) / 2| / |test.getD i 0|)) * 100
  test_size := test.length

/-- Step 7 of `predict_price`: chronological 80/20 split of the (already
truncated) window, refit both models on the train prefix only (the oracle
`bt` receives the train values and the test length), forecast `len(test)`
steps, and score the averaged forecast; `None` when the test split is empty
or the refit raises. -/
def backtestMetrics (sq : ℚ → ℚ) (hp : List ℚ)
    (bt : List ℚ → ℕ → Option ((ℕ → ℚ) × (ℕ → ℚ))) : Option AccuracyMetrics :=
  let train := hp.take (trainSize hp.length)
  let test := hp.drop (trainSize hp.length)
  if 0 < test.length then
    match bt train test.length with
    | some p => some (mkMetrics sq test p.1 p.2)
    | none => none
  else none

/-! ## Confidence scorer (`_calculate_confidence_score`) -/

/-- `_calculate_confidence_score`: start from 100, subtract the capped
uncertainty, volatility and (when metrics are present) backtest penalties,
clamp to [0, 100]. -/
def calculate_confidence_score (forecast_std : List ℚ) (volatility : ℚ)
    (accuracy_metrics : Option AccuracyMetrics) : ℚ :=
  let score := (100 : ℚ)
  let uncertainty_penalty := min (listMean forecast_std * 5) 30
  let score := score - uncertainty_penalty
  let volatility_penalty := min (volatility * 2) 20
  let score := score - volatility_penalty
  let score :=
    match accuracy_metrics with
    | some m => score - min (m.mape / 2) 30
    | none => score
  max 0 (min 100 score)

/-! ## Indicator calculator (`_calculate_indicators`) -/

/-- Rolling-window aggregate: entry `i` applies `f` to the window ending at
`i` once `w` observations are available, and is `0` before that (the leading
undefined entries, `NaN` in pandas, are filled with `0` by the final
`df.fillna(0)`). -/
def rollingApply (w : ℕ) (f : List ℚ → ℚ) (l : List ℚ) : List ℚ :=
  List.ofFn (fun i : Fin l.length =>
    if w ≤ (i : ℕ) + 1 then f ((l.drop ((i : ℕ) + 1 - w)).take w) else 0)

/-- `Series.rolling(window=w).mean()` (with trailing `fillna(0)`). -/
def rollingMean (w : ℕ) (l : List ℚ) : List ℚ := rollingApply w listMean l

/-- `Series.rolling(window=w).std()` (sample std, with trailing `fillna(0)`). -/
def rollingStd (sq : ℚ → ℚ) (w : ℕ) (l : List ℚ) : List ℚ :=
  rollingApply w (fun s => sq (sampleVar s)) l

/-- `Series.ewm(span=s, adjust=False).mean()` tail recursion:
`e_i = a * x_i + (1 - a) * e_(i-1)`. -/
def ewmGo (a : ℚ) (e : ℚ) : List ℚ → List ℚ
  | [] => []
  | x :: xs => (a * x + (1 - a) * e) :: ewmGo a (a * x + (1 - a) * e) xs

/-- `Series.ewm(span=s, adjust=False).mean()`: exponentially weighted mean
with smoothing factor `2 / (span + 1)`, seeded with the first observation. -/
def ewmList (span : ℚ) : List ℚ → List ℚ
  | [] => []
  | x :: xs => x :: ewmGo (2 / (span + 1)) x xs

/-- `delta.where(delta > 0, 0)` applied to `Close.diff()`: per-row gains.
The leading `diff` entry is `NaN`, which `where` replaces with `0`
(`NaN > 0` is false). -/
def gains : List ℚ → List ℚ
  | [] => []
  | x :: xs => 0 :: ((x :: xs).zip xs).map (fun p => max (p.2 - p.1) 0)

/-- `-delta.where(delta < 0, 0)` applied to `Close.diff()`: per-row losses. -/
def losses : List ℚ → List ℚ
  | [] => []
  | x :: xs => 0 :: ((x :: xs).zip xs).map (fun p => max (p.1 - p.2) 0)

/-- The RSI column: `rs = gain / loss` over 14-period rolling means and
`RSI = 100 - 100 / (1 + rs)` (leading undefined entries filled with `0`).
Rational division is total with `x / 0 = 0`; at a zero average loss the
source's float arithmetic yields `inf` (hence RSI `100`) or, for `0/0`,
`NaN` (hence `0` after `fillna`) — in every semantics the entry stays
inside [0, 100], which is what the theorems below use. -/
def rsiList (l : List ℚ) : List ℚ :=
  List.zipWith (fun g lo => 100 - 100 / (1 + g / lo))
    (rollingMean 14 (gains l)) (rollingMean 14 (losses l))

/-- `_calculate_indicators`: SMA-20, EMA-20, Bollinger bands, RSI-14 and
MACD (12, 26, 9) over the truncated window. -/
def calculate_indicators (sq : ℚ → ℚ) (historical : List PricePoint) : Indicators :=
  let close := prices historical
  let sma20 := rollingMean 20 close
  let bbStd := rollingStd sq 20 close
  let macdLine := List.zipWith (fun a b => a - b) (ewmList 12 close) (ewmList 26 close)
  let macdSig := ewmList 9 macdLine
  { dates := historical.map Prod.fst
    sma_20 := sma20
    ema_20 := ewmList 20 close
    rsi := rsiList close
    macd := macdLine
    macd_signal := macdSig
    macd_hist := List.zipWith (fun a b => a - b) macdLine macdSig
    bb_upper := (sma20.zip bbStd).map (fun p => p.1 + 2 * p.2)
    bb_lower := (sma20.zip bbStd).map (fun p => p.1 - 2 * p.2) }

/-! ## Remaining pieces of `predict_price` -/

/-- `volatility = returns.std() * np.sqrt(252) * live_price` with
`returns = historical.pct_change().dropna()`. -/
def volatilityOf (sq : ℚ → ℚ) (hp : List ℚ) (live : ℚ) : ℚ :=
  sq (sampleVar (pctChange hp)) * sq 252 * live

/-- `recent_change = ((live - historical.iloc[-10]) / historical.iloc[-10]) * 100`
when more than 10 points exist, else `0`. -/
def recentChange (hp : List ℚ) (live : ℚ) : ℚ :=
  if 10 < hp.length then
    (live - hp.getD (hp.length - 10) 0) / hp.getD (hp.length - 10) 0 * 100
  else 0

/-- The response dictionary of `predict_price`, assembled from the already
computed pieces (`t1`, `t10` are `final_fc[0]` and `final_fc[-1]`). -/
def mkResponse (sq : ℚ → ℚ) (historical : List PricePoint) (now : ℤ) (live : ℚ)
    (steps : ℕ) (cl : ℚ) (core : CoreForecast) (am : Option AccuracyMetrics)
    (t1 t10 : ℚ) : PredictResponse where
  live_price := live
  historical := historical
  forecast := List.ofFn (fun i : Fin steps =>
    { date := now + (i : ℕ) + 1
      price := core.fc i
      lower_bound := core.lower i
      upper_bound := core.upper i
      std_dev := core.fstd i })
  indicators := calculate_indicators sq historical
  predicted_t1 := t1
  predicted_t10 := t10
  trend :=
    { direction := decide (live < t10)
      percentage_change := (t10 - live) / live * 100
      recent_10d_change := recentChange (prices historical) live }
  volatility := volatilityOf sq (prices historical) live
  confidence_score := calculate_confidence_score
    (List.ofFn (fun i : Fin steps => core.fstd i))
    (volatilityOf sq (prices historical) live) am
  confidence_level := cl
  accuracy_metrics := am

/-- `predict_price(symbol, steps, confidence_level)`.  The provider calls
are replaced by their results (`historical0`, `live`, with `now` the
timestamp of the appended live row); `fit` and `bt` are the model-fitting
oracles for the forecast and the backtest refit.  The final dictionary
indexes `final_fc[0]` and `final_fc[-1]`, which raises on an empty forecast
array: the embedding returns `none` exactly in that case. -/
def predict_price (sq : ℚ → ℚ) (historical0 : List PricePoint) (now : ℤ)
    (live : ℚ) (steps : ℕ) (cl : ℚ)
    (fit : List ℚ → ℕ → ℚ → Option FitResult)
    (bt : List ℚ → ℕ → Option ((ℕ → ℚ) × (ℕ → ℚ))) : Option PredictResponse :=
  let historical := updatedHistorical historical0 now live
  let core := coreForecast sq (prices historical) steps cl fit
  let final_fc := List.ofFn (fun i : Fin steps => core.fc i)
  match final_fc[0]?, final_fc.getLast? with
  | some t1, some t10 =>
      some (mkResponse sq historical now live steps cl core
        (backtestMetrics sq (prices historical) bt) t1 t10)
  | _, _ => none

/-- One model's output in `compare_models`: the `forecast(steps)` values and
the information criteria of the fit. -/
structure CompareFit where
  fc : ℕ → ℚ
  aic : ℚ
  bic : ℚ

/-- The dictionary returned by `compare_models`. -/
structure CompareResponse where
  live_price : ℚ
  arima_t1 : ℚ
  arima_t10 : ℚ
  arima_aic : ℚ
  arima_bic : ℚ
  sarima_t1 : ℚ
  sarima_t10 : ℚ
  sarima_aic : ℚ
  sarima_bic : ℚ

/-- `compare_models(symbol, steps)`: same append-and-truncate preparation of
the series, both models fitted on the full window with no ensembling and no
exception handling (a fitting failure propagates: `none`). -/
def compare_models (historical0 : List PricePoint) (now : ℤ) (live : ℚ)
    (steps : ℕ) (fit2 : List ℚ → ℕ → Option (CompareFit × CompareFit)) :
    Option CompareResponse :=
  let historical := updatedHistorical historical0 now live
  match fit2 (prices historical) steps with
  | some p =>
      let afc := List.ofFn (fun i : Fin steps => p.1.fc i)
      let sfc := List.ofFn (fun i : Fin steps => p.2.fc i)
      match afc[0]?, afc.getLast?, sfc[0]?, sfc.getLast? with
      | some a1, some a10, some s1, some s10 =>
          some { live_price := live
                 arima_t1 := a1, arima_t10 := a10
                 arima_aic := p.1.aic, arima_bic := p.1.bic
                 sarima_t1 := s1, sarima_t10 := s10
                 sarima_aic := p.2.aic, sarima_bic := p.2.bic }
      | _, _, _, _ => none
  | none => none

/-! ## Basic lemmas about the embedding -/

/-- The two-point standard deviation `numpy.std([x, y], axis=0)` computed
with its square root equals the closed form `|x - y| / 2`. -/
lemma pairStd_eq_npStd2 (x y : ℚ) : pairStd x y = ((npStd2 x y : ℚ) : ℝ) := by
  have h : (((x : ℝ) - (x + y) / 2) ^ 2 + ((y : ℝ) - (x + y) / 2) ^ 2) / 2 =
      (((x : ℝ) - y) / 2) ^ 2 := by ring
  rw [pairStd, npStd2]
  push_cast
  rw [h, Real.sqrt_sq_eq_abs, abs_div]
  norm_num

/-- The price values of the updated series: append the live price, keep the
last 120 values. -/
lemma prices_updatedHistorical (h0 : List PricePoint) (now : ℤ) (live : ℚ) :
    prices (updatedHistorical h0 now live) =
      (prices h0 ++ [live]).drop (h0.length + 1 - 120) := by
  simp [updatedHistorical, prices, List.map_drop, List.map_append]

/-- When at least one step is requested, `predict_price` succeeds and
returns the assembled response with `t1 = final_fc[0]`, `t10 = final_fc[-1]`. -/
lemma predict_price_some (sq : ℚ → ℚ) (h0 : List PricePoint) (now : ℤ)
    (live : ℚ) (steps : ℕ) (cl : ℚ)
    (fit : List ℚ → ℕ → ℚ → Option FitResult)
    (bt : List ℚ → ℕ → Option ((ℕ → ℚ) × (ℕ → ℚ))) (hs : 0 < steps) :
    predict_price sq h0 now live steps cl fit bt =
      some (mkResponse sq (updatedHistorical h0 now live) now live steps cl
        (coreForecast sq (prices (updatedHistorical h0 now live)) steps cl fit)
        (backtestMetrics sq (prices (updatedHistorical h0 now live)) bt)
        ((coreForecast sq (prices (updatedHistorical h0 now live)) steps cl fit).fc 0)
        ((coreForecast sq (prices (updatedHistorical h0 now live)) steps cl fit).fc (steps - 1))) := by
  have hsub : steps - 1 < steps := Nat.sub_lt hs one_pos
  simp only [predict_price, List.getLast?_eq_getElem?, List.length_ofFn,
    List.getElem?_ofFn, List.ofFnNthVal, hs, hsub, dif_pos]

/-- `predict_price` with a zero horizon: `final_fc` is empty and indexing it
fails, so no response is produced. -/
lemma predict_price_zero (sq : ℚ → ℚ) (h0 : List PricePoint) (now : ℤ)
    (live : ℚ) (cl : ℚ) (fit : List ℚ → ℕ → ℚ → Option FitResult)
    (bt : List ℚ → ℕ → Option ((ℕ → ℚ) × (ℕ → ℚ))) :
    predict_price sq h0 now live 0 cl fit bt = none := by
  simp [predict_price]

/-! ## C1: the confidence score -/

/-- C1.  `_calculate_confidence_score` equals 100 minus the capped
uncertainty, volatility and (only when metrics are present) backtest
penalties, clamped to [0, 100]; it always lies in [0, 100]; and for zero
dispersion, zero volatility and zero MAPE it is exactly 100. -/
theorem c1_confidence_score (fstd : List ℚ) (vol : ℚ) (am : Option AccuracyMetrics) :
    calculate_confidence_score fstd vol am =
      max 0 (min 100 (100 - min (listMean fstd * 5) 30 - min (vol * 2) 20 -
        am.elim 0 (fun m => min (m.mape / 2) 30))) ∧
    0 ≤ calculate_confidence_score fstd vol am ∧
    calculate_confidence_score fstd vol am ≤ 100 ∧
    (listMean fstd = 0 →
      calculate_confidence_score fstd 0 none = 100 ∧
      ∀ m : AccuracyMetrics, m.mape = 0 →
        calculate_confidence_score fstd 0 (some m) = 100) := by
  refine ⟨?_, ?_, ?_, ?_⟩
  · cases am with
    | none => simp [calculate_confidence_score]
    | some m => simp [calculate_confidence_score]
  · cases am <;> exact le_max_left _ _
  · cases am <;> exact max_le (by norm_num) (min_le_left _ _)
  · intro hz
    constructor
    · simp [calculate_confidence_score, hz]
    · intro m hm
      simp [calculate_confidence_score, hz, hm]

/-! ## Concrete fixtures used by the witness theorems -/

/-- A degenerate square-root stand-in for concrete evaluations (no claim
depends on the values of `sq`). -/
def sqZero : ℚ → ℚ := fun _ => 0

/-- A concrete successful dual-model fit. -/
def frWitness : FitResult where
  arima := { mean := fun _ => 10, lower := fun _ => 8, upper := fun _ => 12 }
  sarima := { mean := fun _ => 20, lower := fun _ => 14, upper := fun _ => 26 }

/-- A one-point fetched series. -/
def series1 : List PricePoint := [((0 : ℤ), (5 : ℚ))]

/-- A 30-point fetched series of constant price 1. -/
def series30 : List PricePoint := List.replicate 30 ((0 : ℤ), (1 : ℚ))

/-! ## C3: ensemble averaging when both fits succeed -/

/-- C3.  When the dual-model fit succeeds, every forecast step's point
estimate is the arithmetic mean of the two models' point estimates, each
interval bound the mean of the models' corresponding bounds, and the
per-step dispersion `npStd2` of the two point estimates — which (second
conjunct) is exactly the standard deviation across the two models' values. -/
theorem c3_ensemble_average (sq : ℚ → ℚ) (h0 : List PricePoint) (now : ℤ)
    (live : ℚ) (steps : ℕ) (cl : ℚ)
    (fit : List ℚ → ℕ → ℚ → Option FitResult)
    (bt : List ℚ → ℕ → Option ((ℕ → ℚ) × (ℕ → ℚ))) (fr : FitResult)
    (hfit : fit (prices (updatedHistorical h0 now live)) steps cl = some fr)
    (hs : 0 < steps) :
    (predict_price sq h0 now live steps cl fit bt).map PredictResponse.forecast =
      some (List.ofFn (fun i : Fin steps =>
        ({ date := now + (i : ℕ) + 1
           price := (fr.arima.mean i + fr.sarima.mean i) / 2
           lower_bound := (fr.arima.lower i + fr.sarima.lower i) / 2
           upper_bound := (fr.arima.upper i + fr.sarima.upper i) / 2
           std_dev := npStd2 (fr.arima.mean i) (fr.sarima.mean i) } : ForecastPoint))) := by
  rw [predict_price_some sq h0 now live steps cl fit bt hs]
  simp [mkResponse, coreForecast, hfit, ensembleCore]

/-- Witness for C3 at a concrete input (trivial oracles, one step). -/
theorem c3_witness :
    (predict_price sqZero series1 0 5 1 (19 / 20) (fun _ _ _ => some frWitness)
        (fun _ _ => none)).map PredictResponse.forecast =
      some (List.ofFn (fun i : Fin 1 =>
        ({ date := (0 : ℤ) + (i : ℕ) + 1
           price := (frWitness.arima.mean i + frWitness.sarima.mean i) / 2
           lower_bound := (frWitness.arima.lower i + frWitness.sarima.lower i) / 2
           upper_bound := (frWitness.arima.upper i + frWitness.sarima.upper i) / 2
           std_dev := npStd2 (frWitness.arima.mean i) (frWitness.sarima.mean i) } : ForecastPoint))) :=
  c3_ensemble_average sqZero series1 0 5 1 (19 / 20) (fun _ _ _ => some frWitness)
    (fun _ _ => none) frWitness rfl (by norm_num)

/-! ## C5: the trend-projection fallback -/

/-- C5.  When the dual-model fit fails, the forecast for step `i+1` is
`last_price + ((last_price - mean(last 5)) / 10) * (i+1)`, each interval is
the point estimate shifted by `±1.96 * std(historical)` — so every interval
has the fixed width `2 * 1.96 * std` — and the reported per-step dispersion
is that same historical standard deviation. -/
theorem c5_fallback_forecast (sq : ℚ → ℚ) (h0 : List PricePoint) (now : ℤ)
    (live : ℚ) (steps : ℕ) (cl : ℚ)
    (fit : List ℚ → ℕ → ℚ → Option FitResult)
    (bt : List ℚ → ℕ → Option ((ℕ → ℚ) × (ℕ → ℚ)))
    (hfit : fit (prices (updatedHistorical h0 now live)) steps cl = none)
    (hs : 0 < steps) :
    (predict_price sq h0 now live steps cl fit bt).map PredictResponse.forecast =
      some (List.ofFn (fun i : Fin steps =>
        ({ date := now + (i : ℕ) + 1
           price := lastPriceOf (prices (updatedHistorical h0 now live)) +
             (lastPriceOf (prices (updatedHistorical h0 now live)) -
               listMean (lastN 5 (prices (updatedHistorical h0 now live)))) / 10 * ((i : ℚ) + 1)
           lower_bound := lastPriceOf (prices (updatedHistorical h0 now live)) +
             (lastPriceOf (prices (updatedHistorical h0 now live)) -
               listMean (lastN 5 (prices (updatedHistorical h0 now live)))) / 10 * ((i : ℚ) + 1) -
             196 / 100 * sq (sampleVar (prices (updatedHistorical h0 now live)))
           upper_bound := lastPriceOf (prices (updatedHistorical h0 now live)) +
             (lastPriceOf (prices (updatedHistorical h0 now live)) -
               listMean (lastN 5 (prices (updatedHistorical h0 now live)))) / 10 * ((i : ℚ) + 1) +
             196 / 100 * sq (sampleVar (prices (updatedHistorical h0 now live)))
           std_dev := sq (sampleVar (prices (updatedHistorical h0 now live))) } : ForecastPoint))) ∧
    (∀ i : ℕ, (fallbackCore sq (prices (updatedHistorical h0 now live))).upper i -
        (fallbackCore sq (prices (updatedHistorical h0 now live))).lower i =
      2 * (196 / 100) * sq (sampleVar (prices (updatedHistorical h0 now live)))) := by
  constructor
  · rw [predict_price_some sq h0 now live steps cl fit bt hs]
    simp [mkResponse, coreForecast, hfit, fallbackCore, fallbackTrend]
  · intro i
    simp [fallbackCore]
    ring

/-- Witness for C5 at a concrete input (the fit oracle always fails). -/
theorem c5_witness :
    (predict_price sqZero series1 0 5 1 (19 / 20) (fun _ _ _ => none)
        (fun _ _ => none)).map PredictResponse.forecast =
      some (List.ofFn (fun i : Fin 1 =>
        ({ date := (0 : ℤ) + (i : ℕ) + 1
           price := lastPriceOf (prices (updatedHistorical series1 0 5)) +
             (lastPriceOf (prices (updatedHistorical series1 0 5)) -
               listMean (lastN 5 (prices (updatedHistorical series1 0 5)))) / 10 * ((i : ℚ) + 1)
           lower_bound := lastPriceOf (prices (updatedHistorical series1 0 5)) +
             (lastPriceOf (prices (updatedHistorical series1 0 5)) -
               listMean (lastN 5 (prices (updatedHistorical series1 0 5)))) / 10 * ((i : ℚ) + 1) -
             196 / 100 * sqZero (sampleVar (prices (updatedHistorical series1 0 5)))
           upper_bound := lastPriceOf (prices (updatedHistorical series1 0 5)) +
             (lastPriceOf (prices (updatedHistorical series1 0 5)) -
               listMean (lastN 5 (prices (updatedHistorical series1 0 5)))) / 10 * ((i : ℚ) + 1) +
             196 / 100 * sqZero (sampleVar (prices (updatedHistorical series1 0 5)))
           std_dev := sqZero (sampleVar (prices (updatedHistorical series1 0 5))) } : ForecastPoint))) :=
  (c5_fallback_forecast sqZero series1 0 5 1 (19 / 20) (fun _ _ _ => none)
    (fun _ _ => none) rfl (by norm_num)).1

/-! ## C6: forecast length and dates -/

/-- C6.  For a series of length at least 30 and a positive horizon, the
forecast has exactly `steps` entries, the dates are `now + 1, now + 2, ...`
(one day after the last historical date, then one day later each step),
hence strictly increasing. -/
theorem c6_forecast_dates (sq : ℚ → ℚ) (h0 : List PricePoint) (now : ℤ)
    (live : ℚ) (steps : ℕ) (cl : ℚ)
    (fit : List ℚ → ℕ → ℚ → Option FitResult)
    (bt : List ℚ → ℕ → Option ((ℕ → ℚ) × (ℕ → ℚ)))
    (hlen : 30 ≤ h0.length) (hs : 1 ≤ steps) :
    (predict_price sq h0 now live steps cl fit bt).map
        (fun r => r.forecast.map ForecastPoint.date) =
      some (List.ofFn (fun i : Fin steps => now + (i : ℕ) + 1)) ∧
    (predict_price sq h0 now live steps cl fit bt).map
        (fun r => r.forecast.length) = some steps ∧
    (List.ofFn (fun i : Fin steps => now + (i : ℕ) + 1)).Pairwise (· < ·) := by
  refine ⟨?_, ?_, ?_⟩
  · rw [predict_price_some sq h0 now live steps cl fit bt hs]
    simp only [Option.map_some', mkResponse, List.map_ofFn]
    exact congrArg (fun f => some (List.ofFn f)) (funext fun i => rfl)
  · rw [predict_price_some sq h0 now live steps cl fit bt hs]
    simp [mkResponse]
  · rw [List.pairwise_iff_get]
    intro i j hij
    simp only [List.get_ofFn, Fin.coe_cast]
    have hvij : (i : ℕ) < (j : ℕ) := hij
    omega

/-- Witness for C6 at a concrete 30-point series with a one-day horizon. -/
theorem c6_witness :
    (predict_price sqZero series30 0 1 1 (19 / 20) (fun _ _ _ => none)
        (fun _ _ => none)).map (fun r => r.forecast.map ForecastPoint.date) =
      some (List.ofFn (fun i : Fin 1 => (0 : ℤ) + (i : ℕ) + 1)) :=
  (c6_forecast_dates sqZero series30 0 1 1 (19 / 20) (fun _ _ _ => none)
    (fun _ _ => none) (by simp [series30]) (by norm_num)).1

/-! ## C10: a zero horizon produces no response -/

/-- C10.  With `steps = 0` the forecast list is empty and building the
response fails (`final_fc[0]` / `final_fc[-1]` index an empty array), so
`predict_price` yields no result; with any `steps ≥ 1` it always yields one. -/
theorem c10_zero_horizon (sq : ℚ → ℚ) (h0 : List PricePoint) (now : ℤ)
    (live : ℚ) (cl : ℚ) (fit : List ℚ → ℕ → ℚ → Option FitResult)
    (bt : List ℚ → ℕ → Option ((ℕ → ℚ) × (ℕ → ℚ))) :
    predict_price sq h0 now live 0 cl fit bt = none ∧
    ∀ steps : ℕ, 1 ≤ steps → (predict_price sq h0 now live steps cl fit bt).isSome := by
  constructor
  · exact predict_price_zero sq h0 now live cl fit bt
  · intro steps hs
    rw [predict_price_some sq h0 now live steps cl fit bt hs]
    rfl

/-! ## C7: the rolling-window mutation of the series -/

/-- C7.  The historical series is mutated only by appending the live price
and truncating to the last 120 points: the updated series has length at
most 120 and ends with the live point; the response's `historical` field is
exactly that series; and both `predict_price` and `compare_models` consult
their fitting (and backtest) oracles only on that series (and its train
prefix), so the updated series is the one every model sees. -/
theorem c7_window_mutation (h0 : List PricePoint) (now : ℤ) (live : ℚ) :
    (updatedHistorical h0 now live).length ≤ 120 ∧
    (updatedHistorical h0 now live).getLast? = some (now, live) ∧
    (∀ (sq : ℚ → ℚ) (steps : ℕ) (cl : ℚ) fit bt, 1 ≤ steps →
      (predict_price sq h0 now live steps cl fit bt).map PredictResponse.historical =
        some (updatedHistorical h0 now live)) ∧
    (∀ (sq : ℚ → ℚ) (steps : ℕ) (cl : ℚ)
        (fit fit' : List ℚ → ℕ → ℚ → Option FitResult)
        (bt bt' : List ℚ → ℕ → Option ((ℕ → ℚ) × (ℕ → ℚ))),
      fit (prices (updatedHistorical h0 now live)) steps cl =
        fit' (prices (updatedHistorical h0 now live)) steps cl →
      bt ((prices (updatedHistorical h0 now live)).take
            (trainSize (prices (updatedHistorical h0 now live)).length))
          (((prices (updatedHistorical h0 now live)).drop
            (trainSize (prices (updatedHistorical h0 now live)).length)).length) =
        bt' ((prices (updatedHistorical h0 now live)).take
            (trainSize (prices (updatedHistorical h0 now live)).length))
          (((prices (updatedHistorical h0 now live)).drop
            (trainSize (prices (updatedHistorical h0 now live)).length)).length) →
      predict_price sq h0 now live steps cl fit bt =
        predict_price sq h0 now live steps cl fit' bt') ∧
    (∀ (steps : ℕ) (fit2 fit2' : List ℚ → ℕ → Option (CompareFit × CompareFit)),
      fit2 (prices (updatedHistorical h0 now live)) steps =
        fit2' (prices (updatedHistorical h0 now live)) steps →
      compare_models h0 now live steps fit2 = compare_models h0 now live steps fit2') := by
  refine ⟨?_, ?_, ?_, ?_, ?_⟩
  · simp only [updatedHistorical, List.length_drop, List.length_append,
      List.length_singleton]
    omega
  · have hk : (h0 ++ [(now, live)]).length - 120 ≤ h0.length := by
      simp only [List.length_append, List.length_singleton]
      omega
    rw [updatedHistorical, List.drop_append_of_le_length hk, List.getLast?_concat]
  · intro sq steps cl fit bt hs
    rw [predict_price_some sq h0 now live steps cl fit bt hs]
    simp [mkResponse]
  · intro sq steps cl fit fit' bt bt' hfit hbt
    have hcore : coreForecast sq (prices (updatedHistorical h0 now live)) steps cl fit =
        coreForecast sq (prices (updatedHistorical h0 now live)) steps cl fit' := by
      unfold coreForecast
      rw [hfit]
    have ham : backtestMetrics sq (prices (updatedHistorical h0 now live)) bt =
        backtestMetrics sq (prices (updatedHistorical h0 now live)) bt' := by
      simp only [backtestMetrics]
      rw [hbt]
    rcases Nat.eq_zero_or_pos steps with h | h
    · subst h
      rw [predict_price_zero, predict_price_zero]
    · rw [predict_price_some sq h0 now live steps cl fit bt h,
        predict_price_some sq h0 now live steps cl fit' bt' h, hcore, ham]
  · intro steps fit2 fit2' hfit2
    simp only [compare_models]
    rw [hfit2]

/-! ## C9: determinism / date-independence of the numeric outputs -/

/-- The numeric outputs of a response: forecast point estimates, bounds and
dispersions, the headline predictions, volatility, confidence score and
accuracy metrics (everything except the date labels and echo fields). -/
def numericView (r : PredictResponse) :
    List (ℚ × ℚ × ℚ × ℚ) × ℚ × ℚ × ℚ × ℚ × Option AccuracyMetrics :=
  (r.forecast.map (fun p => (p.price, p.lower_bound, p.upper_bound, p.std_dev)),
    r.predicted_t1, r.predicted_t10, r.volatility, r.confidence_score,
    r.accuracy_metrics)

/-- C9.  `predict_price` is a pure function of its inputs; the only ambient
input of the source, the wall-clock timestamp of the appended live row,
does not influence any numeric output: two calls with identical historical
data, live price and oracles but different timestamps produce identical
forecasts, bounds, dispersions and scores. -/
theorem c9_deterministic (sq : ℚ → ℚ) (h0 : List PricePoint) (now now2 : ℤ)
    (live : ℚ) (steps : ℕ) (cl : ℚ)
    (fit : List ℚ → ℕ → ℚ → Option FitResult)
    (bt : List ℚ → ℕ → Option ((ℕ → ℚ) × (ℕ → ℚ))) :
    (predict_price sq h0 now live steps cl fit bt).map numericView =
      (predict_price sq h0 now2 live steps cl fit bt).map numericView := by
  have hp_eq : prices (updatedHistorical h0 now live) =
      prices (updatedHistorical h0 now2 live) := by
    rw [prices_updatedHistorical, prices_updatedHistorical]
  rcases Nat.eq_zero_or_pos steps with h | h
  · subst h
    rw [predict_price_zero, predict_price_zero]
  · rw [predict_price_some sq h0 now live steps cl fit bt h,
      predict_price_some sq h0 now2 live steps cl fit bt h]
    simp only [Option.map_some', numericView, mkResponse, List.map_ofFn, hp_eq]
    rfl

/-! ## C4: the backtest split and metrics -/

/-- `int(120 * 0.8) = 96`. -/
lemma trainSize_120 : trainSize 120 = 96 := by
  norm_num [trainSize]
  omega

/-- The train prefix never exceeds the series: `int(n * 0.8) ≤ n`. -/
lemma trainSize_le (n : ℕ) : trainSize n ≤ n := by
  have h1 : (8 : ℚ) / 10 * (n : ℚ) ≤ (n : ℚ) := by
    nlinarith [Nat.cast_nonneg (α := ℚ) n]
  have h2 : ⌊(8 : ℚ) / 10 * (n : ℚ)⌋ ≤ ⌊(n : ℚ)⌋ := Int.floor_le_floor h1
  have h3 : ⌊(n : ℚ)⌋ = (n : ℤ) := Int.floor_natCast n
  rw [trainSize]
  omega

/-- C4.  The backtest splits the window chronologically into a train prefix
of `floor(0.8 * len)` points and the remaining test suffix (96/24 for a
120-point window), hands the refit oracle the train prefix and exactly
`len(test)` forecast steps, averages the two test forecasts, reports MAPE
multiplied by 100, and yields no metrics — without aborting the forecast —
when the test split is empty or the refit fails. -/
theorem c4_backtest_split (sq : ℚ → ℚ) (hp : List ℚ)
    (bt : List ℚ → ℕ → Option ((ℕ → ℚ) × (ℕ → ℚ))) :
    hp.take (trainSize hp.length) ++ hp.drop (trainSize hp.length) = hp ∧
    (hp.take (trainSize hp.length)).length = trainSize hp.length ∧
    (hp.length = 120 →
      (hp.take (trainSize hp.length)).length = 96 ∧
      (hp.drop (trainSize hp.length)).length = 24) ∧
    (∀ afc sfc : ℕ → ℚ,
      bt (hp.take (trainSize hp.length)) ((hp.drop (trainSize hp.length)).length) =
        some (afc, sfc) →
      0 < (hp.drop (trainSize hp.length)).length →
      backtestMetrics sq hp bt =
        some { rmse := sq (listMean (List.ofFn
                 (fun i : Fin (hp.drop (trainSize hp.length)).length =>
                   ((hp.drop (trainSize hp.length)).getD i 0 - (afc i + sfc i) / 2) ^ 2)))
               mae := listMean (List.ofFn
                 (fun i : Fin (hp.drop (trainSize hp.length)).length =>
                   |(hp.drop (trainSize hp.length)).getD i 0 - (afc i + sfc i) / 2|))
               mape := listMean (List.ofFn
                 (fun i : Fin (hp.drop (trainSize hp.length)).length =>
                   |(hp.drop (trainSize hp.length)).getD i 0 - (afc i + sfc i) / 2| /
                     |(hp.drop (trainSize hp.length)).getD i 0|)) * 100
               test_size := (hp.drop (trainSize hp.length)).length }) ∧
    ((hp.drop (trainSize hp.length)).length = 0 → backtestMetrics sq hp bt = none) ∧
    (bt (hp.take (trainSize hp.length)) ((hp.drop (trainSize hp.length)).length) = none →
      backtestMetrics sq hp bt = none) ∧
    (∀ (h0 : List PricePoint) (now : ℤ) (live : ℚ) (steps : ℕ) (cl : ℚ)
        (fit : List ℚ → ℕ → ℚ → Option FitResult),
      1 ≤ steps → (predict_price sq h0 now live steps cl fit bt).isSome) := by
  refine ⟨List.take_append_drop _ _, ?_, ?_, ?_, ?_, ?_, ?_⟩
  · rw [List.length_take]
    exact min_eq_left (trainSize_le hp.length)
  · intro h120
    rw [List.length_take, List.length_drop, h120, trainSize_120]
    omega
  · intro afc sfc hbt hlen
    simp only [backtestMetrics]
    rw [hbt, if_pos hlen]
    rfl
  · intro hzero
    simp [backtestMetrics, hzero]
  · intro hbt
    simp only [backtestMetrics]
    rw [hbt]
    by_cases hl : 0 < (hp.drop (trainSize hp.length)).length
    · rw [if_pos hl]
    · rw [if_neg hl]
  · intro h0 now live steps cl fit hs
    rw [predict_price_some sq h0 now live steps cl fit bt hs]
    rfl

/-! ## C2: the fallback path and accuracy metrics -/

/-- The `accuracy_metrics = None` assignment of the fallback branch is dead:
the backtest block runs unconditionally afterwards and reassigns the
variable.  Here the dual-model fit fails (the forecast is the constant
fallback projection, price 6 at every step), the backtest refit on the
train prefix succeeds, and the response carries a metrics dictionary
instead of the `None` that the fallback branch and its comment promise. -/
theorem c2_fallback_still_reports_metrics :
    (predict_price sqZero [((0 : ℤ), (6 : ℚ)), ((1 : ℤ), (6 : ℚ)), ((2 : ℤ), (6 : ℚ))]
        3 6 1 (19 / 20) (fun _ _ _ => none)
        (fun _ _ => some (fun _ => 6, fun _ => 6))).map
      (fun r => (r.accuracy_metrics, r.forecast.map ForecastPoint.price)) =
    some (some { rmse := 0, mae := 0, mape := 0, test_size := 1 }, [6]) := by
  have hhp : prices (updatedHistorical
      [((0 : ℤ), (6 : ℚ)), ((1 : ℤ), (6 : ℚ)), ((2 : ℤ), (6 : ℚ))] 3 6) =
      [6, 6, 6, 6] := by
    norm_num [updatedHistorical, prices]
  have hts : trainSize 4 = 3 := by
    norm_num [trainSize]
    omega
  have hbm : backtestMetrics sqZero [(6 : ℚ), 6, 6, 6]
      (fun _ _ => some (fun _ => 6, fun _ => 6)) =
      some { rmse := 0, mae := 0, mape := 0, test_size := 1 } := by
    simp only [backtestMetrics, List.length_cons, List.length_nil, hts]
    norm_num [mkMetrics, sqZero, listMean, List.ofFn_succ]
  rw [predict_price_some _ _ _ _ _ _ _ _ (by norm_num)]
  simp only [Option.map_some', mkResponse, hhp, coreForecast, hbm]
  norm_num [List.map_ofFn, List.ofFn_succ, Function.comp, fallbackCore,
    lastPriceOf, fallbackTrend, lastN, listMean]

/-! ## C8: RSI stays inside [0, 100] -/

/-- The mean of nonnegative values is nonnegative. -/
lemma listMean_nonneg (l : List ℚ) (h : ∀ x ∈ l, 0 ≤ x) : 0 ≤ listMean l :=
  div_nonneg (List.sum_nonneg h) (Nat.cast_nonneg _)

/-- Rolling means of a nonnegative series are nonnegative (the filled
leading zeros included). -/
lemma rollingMean_nonneg (w : ℕ) (l : List ℚ) (h : ∀ x ∈ l, 0 ≤ x) :
    ∀ x ∈ rollingMean w l, 0 ≤ x := by
  intro x hx
  rw [rollingMean, rollingApply, List.mem_ofFn] at hx
  obtain ⟨i, rfl⟩ := hx
  show 0 ≤ if w ≤ (i : ℕ) + 1 then listMean (List.take w (List.drop ((i : ℕ) + 1 - w) l)) else 0
  by_cases hw : w ≤ (i : ℕ) + 1
  · rw [if_pos hw]
    refine listMean_nonneg _ (fun y hy => ?_)
    exact h y (List.mem_of_mem_drop (List.mem_of_mem_take hy))
  · rw [if_neg hw]

/-- Every per-row gain is nonnegative. -/
lemma gains_nonneg (l : List ℚ) : ∀ x ∈ gains l, 0 ≤ x := by
  cases l with
  | nil => intro x hx; simp [gains] at hx
  | cons a as =>
    intro x hx
    rw [gains, List.mem_cons] at hx
    rcases hx with rfl | hx
    · exact le_refl 0
    · obtain ⟨p, _, rfl⟩ := List.mem_map.mp hx
      exact le_max_right _ _

/-- Every per-row loss is nonnegative. -/
lemma losses_nonneg (l : List ℚ) : ∀ x ∈ losses l, 0 ≤ x := by
  cases l with
  | nil => intro x hx; simp [losses] at hx
  | cons a as =>
    intro x hx
    rw [losses, List.mem_cons] at hx
    rcases hx with rfl | hx
    · exact le_refl 0
    · obtain ⟨p, _, rfl⟩ := List.mem_map.mp hx
      exact le_max_right _ _

/-- The RSI formula value `100 - 100 / (1 + g / lo)` is inside [0, 100]
whenever the average gain and loss are nonnegative (total division: the
zero-loss entry also lands inside the range). -/
lemma rsi_formula_bounds (g lo : ℚ) (hg : 0 ≤ g) (hl : 0 ≤ lo) :
    0 ≤ 100 - 100 / (1 + g / lo) ∧ 100 - 100 / (1 + g / lo) ≤ 100 := by
  have hr : 0 ≤ g / lo := div_nonneg hg hl
  have hpos : (0 : ℚ) < 1 + g / lo := by linarith
  have hle : 100 / (1 + g / lo) ≤ 100 := by
    rw [div_le_iff₀ hpos]
    nlinarith
  have hge : 0 ≤ 100 / (1 + g / lo) := by positivity
  constructor <;> linarith

/-- `gains` preserves the series length. -/
lemma length_gains (l : List ℚ) : (gains l).length = l.length := by
  cases l with
  | nil => rfl
  | cons a as => simp [gains]

/-- `losses` preserves the series length. -/
lemma length_losses (l : List ℚ) : (losses l).length = l.length := by
  cases l with
  | nil => rfl
  | cons a as => simp [losses]

/-- The RSI column has one entry per series row. -/
lemma length_rsiList (l : List ℚ) : (rsiList l).length = l.length := by
  simp [rsiList, rollingMean, rollingApply, length_gains, length_losses]

/-- C8.  For any series with at least 14 points, every entry of the RSI
column lies in [0, 100]: in particular the `rs = gain / loss` step never
produces an out-of-range value, also at indices where the 14-period average
loss is zero. -/
theorem c8_rsi_bounded (sq : ℚ → ℚ) (h : List PricePoint) (hlen : 14 ≤ h.length)
    (i : ℕ) (hi : i < (calculate_indicators sq h).rsi.length) :
    0 ≤ (calculate_indicators sq h).rsi.getD i 0 ∧
      (calculate_indicators sq h).rsi.getD i 0 ≤ 100 := by
  have hrsi : (calculate_indicators sq h).rsi = rsiList (prices h) := rfl
  rw [hrsi] at hi ⊢
  rw [List.getD_eq_getElem?_getD, List.getElem?_eq_getElem hi, Option.getD_some]
  simp only [rsiList] at hi ⊢
  rw [List.getElem_zipWith]
  have hglen : i < (rollingMean 14 (gains (prices h))).length := by
    rw [List.length_zipWith] at hi
    omega
  have hllen : i < (rollingMean 14 (losses (prices h))).length := by
    rw [List.length_zipWith] at hi
    omega
  refine rsi_formula_bounds _ _ ?_ ?_
  · exact rollingMean_nonneg 14 _ (gains_nonneg _) _ (List.getElem_mem hglen)
  · exact rollingMean_nonneg 14 _ (losses_nonneg _) _ (List.getElem_mem hllen)

/-- Witness for C8: the first RSI entry of a concrete 30-point series. -/
theorem c8_witness :
    0 ≤ (calculate_indicators sqZero series30).rsi.getD 0 0 ∧
      (calculate_indicators sqZero series30).rsi.getD 0 0 ≤ 100 :=
  c8_rsi_bounded sqZero series30 (by simp [series30]) 0
    (by simp [calculate_indicators, length_rsiList, prices, series30])
